import Mathlib

/-!
Shallow embedding of JordanPalafox/webui: a browser control panel for rotary
motors driven over a rosbridge connection.  Two source files:

* src/src/app/page.tsx  — multi-motor panel (state type MState below)
* src/unnamed/part_000  — single-motor panel (state type SState below)

Each React component is modelled as an explicit state record plus one Lean
function per source handler (connection events, poll tick, service-response
callbacks, UI event handlers).  Outgoing remote service calls and setTimeout
registrations are modelled as effect lists returned next to the new state.
JS numbers are modelled as exact reals; degree values that the multi-motor
UI stores after Math.round are integers.  Status strings are modelled as a
structured message type carrying the same numeric payloads the source
interpolates into the string.  The identity of the motorIds array (needed
because React compares the effect dependency [ROSBRIDGE_URL, motorIds] with
Object.is, i.e. by reference for arrays) is modelled by a Nat tag carried
next to the list value.
-/

namespace Webui

/-- page.tsx line 7: const deg2rad = (d) => d * (Math.PI / 180). -/
noncomputable def deg2rad (d : ℝ) : ℝ := d * (Real.pi / 180)

/-- page.tsx line 8: const rad2deg = (r) => r * (180 / Math.PI). -/
noncomputable def rad2deg (r : ℝ) : ℝ := r * (180 / Real.pi)

/-- part_000 lines 14-16: degreesToRadians, same formula as deg2rad. -/
noncomputable def degreesToRadians (degrees : ℝ) : ℝ := degrees * (Real.pi / 180)

/-- part_000 lines 19-21: radiansToDegrees, same formula as rad2deg. -/
noncomputable def radiansToDegrees (radians : ℝ) : ℝ := radians * (180 / Real.pi)

/-- JS Math.round on a finite number: floor (x + 1/2) (halves round toward positive infinity). -/
noncomputable def jsRound (x : ℝ) : Int := ⌊x + 1 / 2⌋

/-- The MotorResponse interface of page.tsx lines 11-17 (part_000 lines 7-11
declare the subset success/message/previous_positions of the same shape).
Optional fields are Options; position lists are radians, hence reals. -/
structure MotorResponse where
  success : Bool
  message : Option String
  motor_ids : Option (List Int)
  positions : Option (List ℝ)
  previous_positions : Option (List ℝ)

/-- Outgoing remote service calls issued through the three service handles. -/
inductive RemoteCall where
  | getAvailableMotors
  | getMotorPositions (motor_ids : List Int)
  | setMotorTarget (motor_ids : List Int) (target_positions : List ℝ)

/-- A setTimeout registration made by a callback (page.tsx lines 124-126). -/
inductive TimerOp where
  | clearMovingAfter (id : Int) (ms : Nat)

/-- Structured rendering of the setLastMessage strings of page.tsx, carrying
exactly the numeric values the source interpolates. -/
inductive MMsg where
  | conectado
  | connError (detail : String)
  | connClosed
  | moviendo (id : Int) (deg : Int)
  | movedFromTo (id : Int) (fromDeg : Int) (toDeg : Int)
  | errorMot (id : Int) (detail : String)
  | errorLlamada (detail : String)

/-- Hook state of the multi-motor component (page.tsx lines 20-31) together
with the mutable refs (service handles as initialized-flags, the poll
interval handle as a Boolean), the connection handle (rosOpen), and the
reference tag bookkeeping for the motorIds dependency of the effect:
motorIdsRef is the identity of the currently stored array, depsRef the
identity snapshotted when the effect last ran. -/
structure MState where
  connected : Bool
  motorIds : List Int
  motorIdsRef : Nat
  depsRef : Nat
  positions : Int → Option Int
  targets : Int → Option Int
  isMoving : Int → Bool
  lastMessage : Option MMsg
  setServiceInit : Bool
  availServiceInit : Bool
  posServiceInit : Bool
  pollTimer : Bool
  rosOpen : Bool

/-- State at component mount, before the connection effect runs: useState
initial values of page.tsx lines 26-31 and null refs of lines 20-24. -/
def initialMState : MState :=
  { connected := false
    motorIds := []
    motorIdsRef := 0
    depsRef := 0
    positions := fun _ => none
    targets := fun _ => none
    isMoving := fun _ => false
    lastMessage := none
    setServiceInit := false
    availServiceInit := false
    posServiceInit := false
    pollTimer := false
    rosOpen := false }

/-- Body of the connection effect (page.tsx lines 36-38): create the Ros
handle, i.e. initiate a connection, and snapshot the dependencies. -/
def effectSetup (s : MState) : MState :=
  { s with rosOpen := true, depsRef := s.motorIdsRef }

/-- Cleanup of the connection effect (page.tsx lines 96-99): clear the poll
interval if set and close the connection. -/
def effectCleanup (s : MState) : MState :=
  { s with pollTimer := false, rosOpen := false }

/-- The ros.on connection handler (page.tsx lines 40-85): set connected,
set the status message, create the three service handles and start the
1000ms poll interval. -/
def rosOnConnection (s : MState) : MState :=
  { s with
      connected := true
      lastMessage := some MMsg.conectado
      setServiceInit := true
      availServiceInit := true
      posServiceInit := true
      pollTimer := true }

/-- The ros.on error handler (page.tsx lines 87-90): it only clears
connected and sets the status message. -/
def rosOnError (err : String) (s : MState) : MState :=
  { s with connected := false, lastMessage := some (MMsg.connError err) }

/-- The ros.on close handler (page.tsx lines 91-94): it only clears
connected and sets the status message. -/
def rosOnClose (s : MState) : MState :=
  { s with connected := false, lastMessage := some MMsg.connClosed }

/-- One tick of the 1000ms poll interval (page.tsx lines 62-84): issue
GetAvailableMotors when the handle exists, and GetMotorPositions over the
known ID list when it is nonempty and the handle exists.  The tick itself
changes no state; state changes happen in the response callbacks. -/
def pollTick (s : MState) : List RemoteCall :=
  (if s.availServiceInit = true then [RemoteCall.getAvailableMotors] else []) ++
    (if s.motorIds ≠ [] ∧ s.posServiceInit = true then
      [RemoteCall.getMotorPositions s.motorIds]
    else [])

/-- Callback of the GetAvailableMotors poll call (page.tsx lines 65-69):
on res.success with a present motor_ids array (any array, empty included,
is truthy in JS), store it.  freshRef is the identity of the newly received
array: a response object parsed from the wire is a fresh allocation. -/
def availServiceCallback (res : MotorResponse) (freshRef : Nat) (s : MState) : MState :=
  if res.success = true ∧ res.motor_ids.isSome = true then
    { s with motorIds := res.motor_ids.getD [], motorIdsRef := freshRef }
  else s

/-- The forEach of page.tsx lines 76-79: starting from the empty object,
write newPos[ids[idx]] = Math.round(rad2deg(rad)) left to right, later
writes overwriting earlier ones.  When the position list is longer than
ids, JS writes under the key "undefined", which touches no integer key,
matching the truncation here. -/
noncomputable def buildNewPos : List Int → List ℝ → (Int → Option Int) → Int → Option Int
  | _, [], m => m
  | [], _ :: _, m => m
  | id :: ids, r :: rs, m =>
      buildNewPos ids rs (fun j => if j = id then some (jsRound (rad2deg r)) else m j)

/-- Callback of the GetMotorPositions poll call (page.tsx lines 74-82),
closed over the requested ID list: on success with a present positions
array, replace the whole positions map by the freshly built one. -/
noncomputable def posServiceCallback (ids : List Int) (res : MotorResponse) (s : MState) : MState :=
  if res.success = true ∧ res.positions.isSome = true then
    { s with positions := buildNewPos ids (res.positions.getD []) (fun _ => none) }
  else s

/-- React commit semantics for this component: after a render, the effect
with dependency array [ROSBRIDGE_URL, motorIds] (page.tsx line 100)
compares the stored dependencies with Object.is; ROSBRIDGE_URL is a stable
environment constant, so the effect re-runs exactly when the motorIds
array reference changed, running the cleanup and then the setup. -/
def reactCommit (s : MState) : MState :=
  if s.motorIdsRef ≠ s.depsRef then effectSetup (effectCleanup s) else s

/-- moveMotor (page.tsx lines 103-133): guard on the uninitialized service
handle returns silently; otherwise mark the motor moving, set the status
message and issue the SetMotorIdAndTarget call with the radian-converted
target. -/
noncomputable def moveMotor (id : Int) (deg : Int) (s : MState) : MState × List RemoteCall :=
  if s.setServiceInit = false then (s, [])
  else
    ({ s with
        isMoving := fun j => if j = id then true else s.isMoving j
        lastMessage := some (MMsg.moviendo id deg) },
      [RemoteCall.setMotorTarget [id] [deg2rad (deg : ℝ)]])

/-- prevRad of page.tsx line 117: res.previous_positions?.[0] || 0.  The
JS || 0 only replaces falsy values (0 stays 0), so on a one-element list
it is the head. -/
noncomputable def prevRadOf (res : MotorResponse) : ℝ :=
  match res.previous_positions with
  | some (p :: _) => p
  | _ => 0

/-- Success callback of the moveMotor service call (page.tsx lines
115-127): set the delta or error message, store the target in degrees in
both branches, and register a 500ms timeout that will clear the moving
flag. -/
noncomputable def moveMotorCallback (id : Int) (deg : Int) (res : MotorResponse) (s : MState) :
    MState × List TimerOp :=
  let s1 :=
    if res.success = true then
      { s with lastMessage := some (MMsg.movedFromTo id (jsRound (rad2deg (prevRadOf res))) deg) }
    else
      { s with lastMessage := some (MMsg.errorMot id (res.message.getD "Desconocido")) }
  ({ s1 with targets := fun j => if j = id then some deg else s1.targets j },
    [TimerOp.clearMovingAfter id 500])

/-- The 500ms timeout body registered by moveMotorCallback (page.tsx lines
124-126): clear the moving flag. -/
def clearMovingTimerFire (id : Int) (s : MState) : MState :=
  { s with isMoving := fun j => if j = id then false else s.isMoving j }

/-- Failure (transport error) callback of the moveMotor service call
(page.tsx lines 128-131): set the error message and clear the moving flag
immediately, with no timer. -/
def moveMotorErrCallback (id : Int) (err : String) (s : MState) : MState :=
  { s with
      lastMessage := some (MMsg.errorLlamada err)
      isMoving := fun j => if j = id then false else s.isMoving j }

/-- page.tsx line 136. -/
def presetPositions : List Int := [-360, -270, -180, -90, 0, 90, 180, 270, 360]

/-- onClick of a preset button (page.tsx line 243): moveMotor(id, degrees). -/
noncomputable def pressPresetButton (id : Int) (degrees : Int) (s : MState) :
    MState × List RemoteCall :=
  moveMotor id degrees s

/-- onChange of the slider (page.tsx line 223): moveMotor(id, value); the
slider has step 1, so the value is an integer. -/
noncomputable def sliderOnChange (id : Int) (value : Int) (s : MState) :
    MState × List RemoteCall :=
  moveMotor id value s

/-- Render derivation curr = positions[id] ?? 0 (page.tsx line 153); the
label prints Math.round(curr), the identity on these stored integers. -/
def displayedCurr (s : MState) (id : Int) : Int := (s.positions id).getD 0

/-- Render derivation tgt = targets[id] ?? curr (page.tsx line 154). -/
def displayedTgt (s : MState) (id : Int) : Int := (s.targets id).getD (displayedCurr s id)

/-- Structured rendering of the setLastMessage strings of part_000.  The
moved message carries the exact real values; the source formats them with
toFixed(1) for display. -/
inductive SMsg where
  | conectado
  | connError (detail : String)
  | connClosed
  | notReady
  | enviando
  | moved (id : Int) (fromDeg : ℝ) (toDeg : ℝ)
  | errorResp (detail : String)
  | errorCall (detail : String)

/-- Hook state of the single-motor component (part_000 lines 24-29) with
the service ref as an initialized-flag and the connection handle. -/
structure SState where
  serviceInit : Bool
  angleDegrees : ℝ
  motorId : Int
  connected : Bool
  lastMessage : Option SMsg
  loading : Bool
  rosOpen : Bool

/-- State at mount of the single-motor component, before its effect runs. -/
def initialSState : SState :=
  { serviceInit := false
    angleDegrees := 0
    motorId := 1
    connected := false
    lastMessage := none
    loading := false
    rosOpen := false }

/-- The mount effect of part_000 (lines 34-68): create the connection and
— synchronously, not waiting for the connection event — create the service
handle (line 58). -/
def sMountEffect (s : SState) : SState :=
  { s with rosOpen := true, serviceInit := true }

/-- part_000 connection handler (lines 39-43). -/
def sOnConnection (s : SState) : SState :=
  { s with connected := true, lastMessage := some SMsg.conectado }

/-- part_000 error handler (lines 45-49). -/
def sOnError (err : String) (s : SState) : SState :=
  { s with connected := false, lastMessage := some (SMsg.connError err) }

/-- part_000 close handler (lines 51-55). -/
def sOnClose (s : SState) : SState :=
  { s with connected := false, lastMessage := some SMsg.connClosed }

/-- part_000 unmount cleanup (lines 65-67): close the connection. -/
def sUnmountCleanup (s : SState) : SState :=
  { s with rosOpen := false }

/-- callMotorService (part_000 lines 71-107): on an uninitialized service
handle, surface the not-ready status and do not call; otherwise set
loading, set the sending status, and issue the call with the
radian-converted angle. -/
noncomputable def callMotorService (motorId : Int) (angleDeg : ℝ) (s : SState) :
    SState × List RemoteCall :=
  if s.serviceInit = false then
    ({ s with lastMessage := some SMsg.notReady }, [])
  else
    ({ s with loading := true, lastMessage := some SMsg.enviando },
      [RemoteCall.setMotorTarget [motorId] [degreesToRadians angleDeg]])

/-- Success callback of callMotorService (part_000 lines 89-101): clear
loading immediately and set the delta or error message.  No timer of any
kind is registered. -/
noncomputable def callMotorServiceCallback (motorId : Int) (angleDeg : ℝ)
    (res : MotorResponse) (s : SState) : SState :=
  let s1 := { s with loading := false }
  if res.success = true then
    { s1 with lastMessage := some (SMsg.moved motorId (radiansToDegrees (prevRadOf res)) angleDeg) }
  else
    { s1 with lastMessage := some (SMsg.errorResp (res.message.getD "Error desconocido")) }

/-- Failure (transport error) callback of callMotorService (part_000 lines
102-106): clear loading immediately and set the error message. -/
def callMotorServiceErrCallback (err : String) (s : SState) : SState :=
  { s with loading := false, lastMessage := some (SMsg.errorCall err) }

/-- handleSliderChange (part_000 lines 110-114): store the new angle
locally, then call the service with it. -/
noncomputable def handleSliderChange (newAngleDeg : ℝ) (s : SState) :
    SState × List RemoteCall :=
  callMotorService s.motorId newAngleDeg { s with angleDegrees := newAngleDeg }

/-- The five preset buttons of part_000 (lines 170-204). -/
def singlePresetValues : List Int := [-360, -180, 0, 180, 360]

/-- onClick of a single-motor preset button (e.g. part_000 line 171):
callMotorService(motorId, value) — the stored angle is not updated. -/
noncomputable def singlePresetClick (value : ℝ) (s : SState) : SState × List RemoteCall :=
  callMotorService s.motorId value s

/-- handleMotorIdChange (part_000 lines 117-120). -/
def handleMotorIdChange (newId : Int) (s : SState) : SState :=
  { s with motorId := newId }

/-! Helper lemmas about the position-map rebuild of the poll callback. -/

/-- A key that is not among the written ids is untouched by the rebuild. -/
theorem buildNewPos_not_mem (ids : List Int) (ps : List ℝ) (m : Int → Option Int)
    (k : Int) (hk : k ∉ ids) : buildNewPos ids ps m k = m k := by
  induction ids generalizing ps m with
  | nil => cases ps <;> rfl
  | cons a t ih =>
    cases ps with
    | nil => rfl
    | cons r rs =>
      have hka : k ≠ a := fun h => hk (h ▸ List.mem_cons_self a t)
      have hkt : k ∉ t := fun h => hk (List.mem_cons_of_mem _ h)
      simp only [buildNewPos]
      rw [ih rs _ hkt]
      simp [hka]

/-- For distinct ids and a parallel position list, the rebuilt map sends the
id at index i to the rounded degree conversion of the radian at index i. -/
theorem buildNewPos_getD (ids : List Int) (ps : List ℝ) (m : Int → Option Int)
    (hnd : ids.Nodup) (hlen : ps.length = ids.length) (i : Nat) (hi : i < ids.length) :
    buildNewPos ids ps m (ids.getD i 0) = some (jsRound (rad2deg (ps.getD i 0))) := by
  induction ids generalizing ps m i with
  | nil => simp at hi
  | cons a t ih =>
    cases ps with
    | nil => simp at hlen
    | cons r rs =>
      rcases List.nodup_cons.mp hnd with ⟨hat, hndt⟩
      cases i with
      | zero =>
        simp only [List.getD_cons_zero, buildNewPos]
        rw [buildNewPos_not_mem t rs _ a hat]
        simp
      | succ j =>
        simp only [List.getD_cons_succ, buildNewPos]
        exact ih rs _ hndt (by simp only [List.length_cons] at hlen; omega) j
          (by simp only [List.length_cons] at hi; omega)

/-- With a parallel position list, every requested id receives an entry. -/
theorem buildNewPos_isSome_of_mem (ids : List Int) (ps : List ℝ) (m : Int → Option Int)
    (j : Int) (hlen : ps.length = ids.length) (hj : j ∈ ids) :
    (buildNewPos ids ps m j).isSome = true := by
  induction ids generalizing ps m with
  | nil => simp at hj
  | cons a t ih =>
    cases ps with
    | nil => simp at hlen
    | cons r rs =>
      simp only [buildNewPos]
      by_cases hjt : j ∈ t
      · exact ih rs _ (by simp only [List.length_cons] at hlen; omega) hjt
      · have hja : j = a := by
          rcases List.mem_cons.mp hj with h | h
          · exact h
          · exact absurd h hjt
        rw [buildNewPos_not_mem t rs _ j hjt]
        simp [hja]

/-- C9: for all angles d in degrees, rad2deg (deg2rad d) = d exactly, over
exact real arithmetic with the scale factors pi/180 and 180/pi, for the
conversion pair of each of the two source files. -/
theorem rad_deg_roundtrip (d : ℝ) :
    rad2deg (deg2rad d) = d ∧ radiansToDegrees (degreesToRadians d) = d := by
  have hpi : Real.pi ≠ 0 := Real.pi_ne_zero
  constructor <;>
    · simp only [rad2deg, deg2rad, radiansToDegrees, degreesToRadians]
      field_simp

/-- C1 (amended): the error and close handlers clear the connected flag and
set a status message, but leave the poll timer running and the upcoming
poll ticks unchanged; the timer is stopped only by the effect cleanup
(which runs on unmount or on a motor-ID-list dependency change), so remote
calls keep being attempted after a disconnection event. -/
theorem disconnect_handlers_clear_connected_only (s : MState) (err : String) :
    (rosOnError err s).connected = false ∧
    (rosOnClose s).connected = false ∧
    (rosOnError err s).pollTimer = s.pollTimer ∧
    (rosOnClose s).pollTimer = s.pollTimer ∧
    pollTick (rosOnError err s) = pollTick s ∧
    pollTick (rosOnClose s) = pollTick s ∧
    (effectCleanup s).pollTimer = false :=
  ⟨rfl, rfl, rfl, rfl, rfl, rfl, rfl⟩

/-- C1 counterexample: after connecting and then receiving the close event,
the connected flag is cleared but the poll timer is still set and the next
poll tick still issues the GetAvailableMotors remote call, refuting the
claim that a disconnection event stops the poll timer and that no further
remote calls are issued until reconnection. -/
theorem close_event_leaves_poll_timer_running :
    (rosOnClose (rosOnConnection (effectSetup initialMState))).connected = false ∧
    (rosOnClose (rosOnConnection (effectSetup initialMState))).pollTimer = true ∧
    pollTick (rosOnClose (rosOnConnection (effectSetup initialMState))) =
      [RemoteCall.getAvailableMotors] := by
  refine ⟨rfl, rfl, ?_⟩
  simp [pollTick, rosOnClose, rosOnConnection, effectSetup, initialMState]

/-- C2 counterexample: in the multi-motor panel, dispatching a move for
motor 1 to 90 degrees from a freshly connected state fires the
SetMotorTarget call, yet leaves the stored target for motor 1 unset — the
target is not written at dispatch time, refuting the claimed optimistic
target update. -/
theorem dispatch_does_not_set_target :
    ((moveMotor 1 90 (rosOnConnection (effectSetup initialMState))).1.targets 1 = none) ∧
    ((moveMotor 1 90 (rosOnConnection (effectSetup initialMState))).2 =
      [RemoteCall.setMotorTarget [1] [deg2rad 90]]) :=
  ⟨rfl, rfl⟩

/-- C2 (amended): a slider drag or preset press marks the motor as moving
and fires exactly one SetMotorTarget call at dispatch, but the per-motor
target is stored only when the set-call's callback resolves (in either
response branch); in the single-motor variant the slider does update the
stored angle immediately at dispatch, while a preset press leaves it
unchanged. -/
theorem dispatch_marks_moving_and_fires_call (s s2 : MState) (t : SState)
    (id deg : Int) (res : MotorResponse) (v : ℝ) (hinit : s.setServiceInit = true) :
    ((moveMotor id deg s).1.isMoving id = true) ∧
    ((moveMotor id deg s).1.targets = s.targets) ∧
    ((moveMotor id deg s).2 = [RemoteCall.setMotorTarget [id] [deg2rad (deg : ℝ)]]) ∧
    ((moveMotorCallback id deg res s2).1.targets id = some deg) ∧
    ((handleSliderChange v t).1.angleDegrees = v) ∧
    ((singlePresetClick v t).1.angleDegrees = t.angleDegrees) := by
  refine ⟨?_, ?_, ?_, ?_, ?_, ?_⟩
  · simp [moveMotor, hinit]
  · simp [moveMotor, hinit]
  · simp [moveMotor, hinit]
  · by_cases h : res.success = true <;> simp [moveMotorCallback, h]
  · by_cases h : t.serviceInit = false <;> simp [handleSliderChange, callMotorService, h]
  · by_cases h : t.serviceInit = false <;> simp [singlePresetClick, callMotorService, h]

/-- C2 witness: the amended dispatch/callback behavior checked on motor 1
moved to 90 degrees from a freshly connected multi-motor state, and on a
45 degree slider move of the freshly mounted single-motor state. -/
theorem dispatch_marks_moving_and_fires_call_inst :
    ((rosOnConnection (effectSetup initialMState)).setServiceInit = true) ∧
    (((moveMotor 1 90 (rosOnConnection (effectSetup initialMState))).1.isMoving 1 = true) ∧
      ((moveMotor 1 90 (rosOnConnection (effectSetup initialMState))).1.targets =
        (rosOnConnection (effectSetup initialMState)).targets) ∧
      ((moveMotor 1 90 (rosOnConnection (effectSetup initialMState))).2 =
        [RemoteCall.setMotorTarget [1] [deg2rad ((90 : Int) : ℝ)]]) ∧
      ((moveMotorCallback 1 90 ⟨true, none, none, none, none⟩ initialMState).1.targets 1 =
        some 90) ∧
      ((handleSliderChange 45 initialSState).1.angleDegrees = 45) ∧
      ((singlePresetClick 45 initialSState).1.angleDegrees = initialSState.angleDegrees)) :=
  ⟨rfl, dispatch_marks_moving_and_fires_call (rosOnConnection (effectSetup initialMState))
    initialMState initialSState 1 90 ⟨true, none, none, none, none⟩ 45 rfl⟩

/-- C4 counterexample: in the multi-motor panel, a move attempted while the
service handle is uninitialized does not attempt the call, but it also
surfaces no status message at all (the status stays unset), refuting the
claimed specific not-ready status. -/
theorem uninitialized_guard_is_silent_multi :
    ((moveMotor 1 90 initialMState).1.lastMessage = none) ∧
    ((moveMotor 1 90 initialMState).2 = []) :=
  ⟨rfl, rfl⟩

/-- C4 (amended): with an uninitialized service handle the call is not
attempted in either variant; the single-motor variant surfaces the
specific not-ready status message, while the multi-motor variant returns
silently, leaving the state (its status message included) unchanged. -/
theorem uninitialized_service_guard (s : MState) (t : SState) (id deg : Int) (v : ℝ)
    (hm : s.setServiceInit = false) (hs : t.serviceInit = false) :
    moveMotor id deg s = (s, []) ∧
    callMotorService id v t = ({ t with lastMessage := some SMsg.notReady }, []) := by
  constructor
  · simp [moveMotor, hm]
  · simp [callMotorService, hs]

/-- C4 witness: the guard behavior checked at the mount states of both
variants, where no service handle exists yet. -/
theorem uninitialized_service_guard_inst :
    (initialMState.setServiceInit = false) ∧
    (initialSState.serviceInit = false) ∧
    (moveMotor 1 90 initialMState = (initialMState, []) ∧
      callMotorService 1 45 initialSState =
        ({ initialSState with lastMessage := some SMsg.notReady }, [])) :=
  ⟨rfl, rfl, uninitialized_service_guard initialMState initialSState 1 90 45 rfl rfl⟩

/-- C5 counterexample: the moving state is not always cleared by a settle
timer after the callback.  In the multi-motor panel the transport-failure
callback clears the moving flag in the very same step, and in the
single-motor variant the loading flag — set at dispatch — is cleared
immediately when the success callback resolves; no 1000 ms timer exists
there. -/
theorem moving_cleared_without_timer :
    ((moveMotorErrCallback 1 "e"
        ((moveMotor 1 90 (rosOnConnection (effectSetup initialMState))).1)).isMoving 1 =
      false) ∧
    ((callMotorService 1 90 (sMountEffect initialSState)).1.loading = true) ∧
    ((callMotorServiceCallback 1 90 ⟨true, none, none, none, none⟩
        ((callMotorService 1 90 (sMountEffect initialSState)).1)).loading = false) :=
  ⟨rfl, rfl, rfl⟩

/-- C5 (amended): the moving flag is set true at dispatch; the success
callback (both for application success and application failure) registers
a 500 ms timer whose firing clears it, while the transport-failure
callback clears it immediately; in the single-motor variant the loading
flag is cleared immediately when either callback resolves, with no timer;
no path confirms actual arrival at the target. -/
theorem moving_flag_lifecycle (s s2 s3 : MState) (t : SState) (id deg : Int)
    (res : MotorResponse) (err : String) (hinit : s.setServiceInit = true) :
    ((moveMotor id deg s).1.isMoving id = true) ∧
    ((moveMotorCallback id deg res s2).2 = [TimerOp.clearMovingAfter id 500]) ∧
    ((moveMotorCallback id deg res s2).1.isMoving = s2.isMoving) ∧
    ((clearMovingTimerFire id s3).isMoving id = false) ∧
    ((moveMotorErrCallback id err s3).isMoving id = false) ∧
    ((callMotorServiceCallback id (deg : ℝ) res t).loading = false) ∧
    ((callMotorServiceErrCallback err t).loading = false) := by
  refine ⟨?_, ?_, ?_, ?_, ?_, ?_, ?_⟩
  · simp [moveMotor, hinit]
  · by_cases h : res.success = true <;> simp [moveMotorCallback, h]
  · by_cases h : res.success = true <;> simp [moveMotorCallback, h]
  · simp [clearMovingTimerFire]
  · simp [moveMotorErrCallback]
  · by_cases h : res.success = true <;> simp [callMotorServiceCallback, h]
  · simp [callMotorServiceErrCallback]

/-- C5 witness: the moving-flag lifecycle checked for motor 1 moved to 90
degrees from a freshly connected state, with a successful response. -/
theorem moving_flag_lifecycle_inst :
    ((rosOnConnection (effectSetup initialMState)).setServiceInit = true) ∧
    (((moveMotor 1 90 (rosOnConnection (effectSetup initialMState))).1.isMoving 1 = true) ∧
      ((moveMotorCallback 1 90 ⟨true, none, none, none, none⟩ initialMState).2 =
        [TimerOp.clearMovingAfter 1 500]) ∧
      ((moveMotorCallback 1 90 ⟨true, none, none, none, none⟩ initialMState).1.isMoving =
        initialMState.isMoving) ∧
      ((clearMovingTimerFire 1 initialMState).isMoving 1 = false) ∧
      ((moveMotorErrCallback 1 "e" initialMState).isMoving 1 = false) ∧
      ((callMotorServiceCallback 1 ((90 : Int) : ℝ) ⟨true, none, none, none, none⟩
          initialSState).loading = false) ∧
      ((callMotorServiceErrCallback "e" initialSState).loading = false)) :=
  ⟨rfl, moving_flag_lifecycle (rosOnConnection (effectSetup initialMState)) initialMState
    initialMState initialSState 1 90 ⟨true, none, none, none, none⟩ "e" rfl⟩

/-- C3: whenever a successful GetAvailableMotors response stores a freshly
allocated motor-ID array (its reference differing from the dependency
snapshot), the connection effect's cleanup runs — clearing the poll timer
and closing the bridge connection — and the effect setup then opens a new
connection; the stored list is the one received. -/
theorem fresh_motor_ids_restart_connection_effect (s : MState) (res : MotorResponse)
    (freshRef : Nat) (hsucc : res.success = true) (hids : res.motor_ids.isSome = true)
    (hfresh : freshRef ≠ s.depsRef) :
    ((availServiceCallback res freshRef s).motorIds = res.motor_ids.getD []) ∧
    (reactCommit (availServiceCallback res freshRef s) =
      effectSetup (effectCleanup (availServiceCallback res freshRef s))) ∧
    ((effectCleanup (availServiceCallback res freshRef s)).pollTimer = false) ∧
    ((effectCleanup (availServiceCallback res freshRef s)).rosOpen = false) ∧
    ((reactCommit (availServiceCallback res freshRef s)).rosOpen = true) := by
  have hcb : availServiceCallback res freshRef s =
      { s with motorIds := res.motor_ids.getD [], motorIdsRef := freshRef } := by
    simp [availServiceCallback, hsucc, hids]
  refine ⟨?_, ?_, ?_, ?_, ?_⟩ <;>
    simp [hcb, reactCommit, effectSetup, effectCleanup, hfresh]

/-- C3 witness: the effect restart checked at the mount state upon a
successful discovery response carrying motor list [2] under a fresh
reference. -/
theorem fresh_motor_ids_restart_connection_effect_inst :
    ((⟨true, none, some [2], none, none⟩ : MotorResponse).success = true) ∧
    ((⟨true, none, some [2], none, none⟩ : MotorResponse).motor_ids.isSome = true) ∧
    ((1 : Nat) ≠ initialMState.depsRef) ∧
    (((availServiceCallback ⟨true, none, some [2], none, none⟩ 1 initialMState).motorIds =
        (⟨true, none, some [2], none, none⟩ : MotorResponse).motor_ids.getD []) ∧
      (reactCommit (availServiceCallback ⟨true, none, some [2], none, none⟩ 1 initialMState) =
        effectSetup (effectCleanup
          (availServiceCallback ⟨true, none, some [2], none, none⟩ 1 initialMState))) ∧
      ((effectCleanup (availServiceCallback ⟨true, none, some [2], none, none⟩ 1
          initialMState)).pollTimer = false) ∧
      ((effectCleanup (availServiceCallback ⟨true, none, some [2], none, none⟩ 1
          initialMState)).rosOpen = false) ∧
      ((reactCommit (availServiceCallback ⟨true, none, some [2], none, none⟩ 1
          initialMState)).rosOpen = true)) :=
  ⟨rfl, rfl, by decide,
    fresh_motor_ids_restart_connection_effect initialMState
      ⟨true, none, some [2], none, none⟩ 1 rfl rfl (by decide)⟩

/-- C6: the preset list is exactly -360, -270, -180, -90, 0, 90, 180, 270,
360 degrees; pressing a preset for a motor dispatches exactly one
SetMotorTarget call with payload motor_ids = [that id] and
target_positions = [deg2rad of the preset], and the target stored by the
command path's callback is exactly the preset's literal degree value. -/
theorem preset_buttons_exact_dispatch (s s2 : MState) (id v : Int) (res : MotorResponse)
    (_hv : v ∈ presetPositions) (hinit : s.setServiceInit = true) :
    (presetPositions = [-360, -270, -180, -90, 0, 90, 180, 270, 360]) ∧
    ((pressPresetButton id v s).2 = [RemoteCall.setMotorTarget [id] [deg2rad (v : ℝ)]]) ∧
    ((moveMotorCallback id v res s2).1.targets id = some v) := by
  refine ⟨rfl, ?_, ?_⟩
  · simp [pressPresetButton, moveMotor, hinit]
  · by_cases h : res.success = true <;> simp [moveMotorCallback, h]

/-- C6 witness: the preset dispatch checked for the 90 degree preset of
motor 3 from a freshly connected state with a successful response. -/
theorem preset_buttons_exact_dispatch_inst :
    ((90 : Int) ∈ presetPositions) ∧
    ((rosOnConnection (effectSetup initialMState)).setServiceInit = true) ∧
    ((presetPositions = [-360, -270, -180, -90, 0, 90, 180, 270, 360]) ∧
      ((pressPresetButton 3 90 (rosOnConnection (effectSetup initialMState))).2 =
        [RemoteCall.setMotorTarget [3] [deg2rad ((90 : Int) : ℝ)]]) ∧
      ((moveMotorCallback 3 90 ⟨true, none, none, none, none⟩ initialMState).1.targets 3 =
        some 90)) :=
  ⟨by decide, rfl,
    preset_buttons_exact_dispatch (rosOnConnection (effectSetup initialMState))
      initialMState 3 90 ⟨true, none, none, none, none⟩ (by decide) rfl⟩

/-- C7: on a successful GetMotorPositions response parallel to the
requested distinct ID list, the displayed current position of the motor at
index i of the request is the degree conversion (rounded to whole degrees,
as the UI stores and shows it) of the radian at the same index i — the
mapping is by index, not by value. -/
theorem positions_mapped_by_index (s : MState) (ids : List Int) (ps : List ℝ)
    (res : MotorResponse) (i : Nat) (hsucc : res.success = true)
    (hpos : res.positions = some ps) (hnd : ids.Nodup)
    (hlen : ps.length = ids.length) (hi : i < ids.length) :
    displayedCurr (posServiceCallback ids res s) (ids.getD i 0) =
      jsRound (rad2deg (ps.getD i 0)) := by
  have hcb : posServiceCallback ids res s =
      { s with positions := buildNewPos ids ps (fun _ => none) } := by
    simp [posServiceCallback, hsucc, hpos]
  rw [hcb]
  simp only [displayedCurr]
  rw [buildNewPos_getD ids ps _ hnd hlen i hi]
  rfl

/-- C7 witness: the index mapping checked for the request [1] answered with
the radian list [0], at index 0. -/
theorem positions_mapped_by_index_inst :
    ((⟨true, none, none, some [0], none⟩ : MotorResponse).success = true) ∧
    ((⟨true, none, none, some [0], none⟩ : MotorResponse).positions = some [(0 : ℝ)]) ∧
    (([(1 : Int)]).Nodup) ∧
    ([(0 : ℝ)].length = [(1 : Int)].length) ∧
    (0 < [(1 : Int)].length) ∧
    (displayedCurr (posServiceCallback [1] ⟨true, none, none, some [0], none⟩ initialMState)
        ([(1 : Int)].getD 0 0) = jsRound (rad2deg ([(0 : ℝ)].getD 0 0))) :=
  ⟨rfl, rfl, by decide, rfl, by decide,
    positions_mapped_by_index initialMState [1] [0] ⟨true, none, none, some [0], none⟩ 0
      rfl rfl (by decide) rfl (by decide)⟩

/-- C8: on a successful SetMotorTarget response carrying
previous_positions = [p] for a request that asked for degree value deg,
the delta status message shows the degree conversion of p (rounded to
whole degrees as everywhere in this UI) as the from value and the
originally requested deg as the to value. -/
theorem delta_message_from_previous_position (s : MState) (id deg : Int)
    (res : MotorResponse) (p : ℝ) (hsucc : res.success = true)
    (hprev : res.previous_positions = some [p]) :
    (moveMotorCallback id deg res s).1.lastMessage =
      some (MMsg.movedFromTo id (jsRound (rad2deg p)) deg) := by
  have hpr : prevRadOf res = p := by unfold prevRadOf; rw [hprev]
  simp [moveMotorCallback, hsucc, hpr]

/-- C8 witness: the delta message checked for motor 3 asked to move to 90
degrees, answered successfully with previous position 0 radians. -/
theorem delta_message_from_previous_position_inst :
    ((⟨true, none, none, none, some [0]⟩ : MotorResponse).success = true) ∧
    ((⟨true, none, none, none, some [0]⟩ : MotorResponse).previous_positions =
      some [(0 : ℝ)]) ∧
    ((moveMotorCallback 3 90 ⟨true, none, none, none, some [0]⟩ initialMState).1.lastMessage =
      some (MMsg.movedFromTo 3 (jsRound (rad2deg 0)) 90)) :=
  ⟨rfl, rfl,
    delta_message_from_previous_position initialMState 3 90
      ⟨true, none, none, none, some [0]⟩ 0 rfl rfl⟩

/-- C10: a successful GetMotorPositions response parallel to the request
replaces the entire current-position map: afterwards an id has an entry
exactly when it was in that tick's request, an id absent from the request
has lost any stored position and its panel displays 0 degrees, and the
stored targets are unchanged. -/
theorem poll_replaces_position_map (s : MState) (ids : List Int) (ps : List ℝ)
    (res : MotorResponse) (j : Int) (hsucc : res.success = true)
    (hpos : res.positions = some ps) (hlen : ps.length = ids.length) :
    ((((posServiceCallback ids res s).positions j).isSome = true) ↔ j ∈ ids) ∧
    (j ∉ ids → displayedCurr (posServiceCallback ids res s) j = 0) ∧
    ((posServiceCallback ids res s).targets = s.targets) := by
  have hcb : posServiceCallback ids res s =
      { s with positions := buildNewPos ids ps (fun _ => none) } := by
    simp [posServiceCallback, hsucc, hpos]
  rw [hcb]
  refine ⟨⟨fun hj => ?_, fun hj => buildNewPos_isSome_of_mem ids ps _ j hlen hj⟩,
    fun hj => ?_, rfl⟩
  · by_contra hjn
    have hj2 : (buildNewPos ids ps (fun _ => none) j).isSome = true := hj
    rw [buildNewPos_not_mem ids ps _ j hjn] at hj2
    simp at hj2
  · simp only [displayedCurr]
    rw [buildNewPos_not_mem ids ps _ j hj]
    rfl

/-- C10 witness: the map replacement checked for the request [1] answered
with [0] radians, looking at the unrequested motor id 2. -/
theorem poll_replaces_position_map_inst :
    ((⟨true, none, none, some [0], none⟩ : MotorResponse).success = true) ∧
    ((⟨true, none, none, some [0], none⟩ : MotorResponse).positions = some [(0 : ℝ)]) ∧
    ([(0 : ℝ)].length = [(1 : Int)].length) ∧
    ((((posServiceCallback [1] ⟨true, none, none, some [0], none⟩
        initialMState).positions 2).isSome = true) ↔ (2 : Int) ∈ [(1 : Int)]) ∧
    (displayedCurr (posServiceCallback [1] ⟨true, none, none, some [0], none⟩
        initialMState) 2 = 0) ∧
    ((posServiceCallback [1] ⟨true, none, none, some [0], none⟩ initialMState).targets =
      initialMState.targets) :=
  ⟨rfl, rfl, rfl,
    (poll_replaces_position_map initialMState [1] [0] ⟨true, none, none, some [0], none⟩ 2
      rfl rfl rfl).1,
    (poll_replaces_position_map initialMState [1] [0] ⟨true, none, none, some [0], none⟩ 2
      rfl rfl rfl).2.1 (by decide),
    (poll_replaces_position_map initialMState [1] [0] ⟨true, none, none, some [0], none⟩ 2
      rfl rfl rfl).2.2⟩

end Webui
